import Mathlib

/-
Verification of the scroll-triggered counter animator in
src/WISE/script.js (Visby-Soltipp repository).

The JavaScript widget is shallowly embedded as follows:
- JS numbers are `Option ℚ`: `some q` is the exact value, `none` is NaN.
  The widget's arithmetic (`+`, `/100`, `>=`) is total on this type, with
  NaN absorbing in arithmetic and making comparisons false, matching
  IEEE/JS semantics for the operations the script uses.
- `Number.prototype.toFixed` is modelled on exact rationals: sign taken
  from the value, magnitude rounded to `d` fractional digits with ties
  rounded up, rendered in fixed-point notation; NaN renders as "NaN".
- The per-counter `setInterval` loop (script.js lines 15-27) is the step
  function `tick` on a `Counter` state; `clearInterval` is the `running`
  flag, and a cancelled timer's callback never runs again (`tick` is the
  identity once `running = false`).
- The page-level machine (`started` flag and `animateTicker`,
  script.js lines 6-13) is `TickerState`/`animateTicker`, with the
  environment's geometry query (`getBoundingClientRect().top`,
  `window.innerHeight`) passed as explicit rational inputs.
- The DOMContentLoaded handler (script.js lines 2-32) is `setup`, whose
  result records whether the scroll listener was registered and how many
  interval timers were created.
-/

/-- A JavaScript number as used by the script: `some q` for an exact
value, `none` for NaN. -/
abbrev JsNum := Option ℚ

/-- JS addition (`count += step`): NaN absorbs. -/
def jsAdd : JsNum → JsNum → JsNum
  | some a, some b => some (a + b)
  | _, _ => none

/-- JS division by the literal 100 (`target / 100`): NaN propagates. -/
def jsDiv100 : JsNum → JsNum
  | some a => some (a / 100)
  | none => none

/-- JS `>=` comparison (`count >= target`): any comparison with NaN is
false. -/
def jsGe : JsNum → JsNum → Bool
  | some a, some b => decide (b ≤ a)
  | _, _ => false

/-- Left-pad a digit string with zeros to length `d`. -/
def padZeros (s : String) (d : Nat) : String :=
  if d ≤ s.length then s
  else String.mk (List.replicate (d - s.length) '0') ++ s

/-- Render a natural number `m` that stands for a fixed-point value with
`d` fractional digits (i.e. the value `m / 10^d`). -/
def natFixed (m : Nat) (d : Nat) : String :=
  if d = 0 then toString m
  else toString (m / 10 ^ d) ++ "." ++ padZeros (toString (m % 10 ^ d)) d

/-- `q.toFixed(d)` for an exact (non-NaN) rational: the sign comes from
the value, the magnitude is rounded to `d` fractional digits with ties
rounded up, and the result is rendered in fixed-point notation. -/
def ratToFixed (q : ℚ) (d : Nat) : String :=
  let sgn := if q < 0 then "-" else ""
  let n := (⌊|q| * 10 ^ d + 1 / 2⌋).toNat
  sgn ++ natFixed n d

/-- `x.toFixed(d)` on a JS number: NaN renders as "NaN". -/
def toFixedJ : JsNum → Nat → String
  | none, _ => "NaN"
  | some q, d => ratToFixed q d

/-- The state of one counter element's animation (script.js lines 14-27):
the parsed `target` and `decimals`, the per-tick `step`, the running
`count`, whether the interval timer is still scheduled, and the last text
written to the element (`none` before the first render). -/
structure Counter where
  target : JsNum
  decimals : Nat
  step : JsNum
  count : JsNum
  running : Bool
  text : Option String
  intervalMs : Nat
deriving DecidableEq

/-- A counter as created when the animation set starts (script.js lines
15-19): `count = 0`, `step = target / 100`, interval of 20 ms. -/
def initCounter (t : JsNum) (d : Nat) : Counter :=
  { target := t
    decimals := d
    step := jsDiv100 t
    count := some 0
    running := true
    text := none
    intervalMs := 20 }

/-- One firing of the interval callback (script.js lines 20-26):
`count += step`; if `count >= target` then `count = target` and
`clearInterval`; then render `count.toFixed(decimals)` into the element.
A cancelled timer never fires again, so `tick` is the identity when
`running = false`. -/
def tick (c : Counter) : Counter :=
  if c.running then
    let c1 := jsAdd c.count c.step
    if jsGe c1 c.target then
      { c with count := c.target
               running := false
               text := some (toFixedJ c.target c.decimals) }
    else
      { c with count := c1
               text := some (toFixedJ c1 c.decimals) }
  else c

/-- The counter state after `n` firings of its interval callback. -/
def runTicks (c : Counter) : Nat → Counter
  | 0 => c
  | n + 1 => tick (runTicks c n)

/-- The page-wide trigger state: the Armed flag `started` (script.js
line 6) and a count of how many times the animation set has been
started. -/
structure TickerState where
  started : Bool
  startEvents : Nat
deriving DecidableEq

/-- The state at page-ready time: `started = false`, nothing started. -/
def initTicker : TickerState := { started := false, startEvents := 0 }

/-- One invocation of the visibility check `animateTicker` (script.js
lines 8-29), given the container's top edge position `pos` and the
viewport height `innerHeight` from the environment's geometry query:
if `started`, return immediately; if `pos < innerHeight`, set `started`
and start the animation set. -/
def animateTicker (pos innerHeight : ℚ) (s : TickerState) : TickerState :=
  if s.started then s
  else if pos < innerHeight then
    { started := true, startEvents := s.startEvents + 1 }
  else s

/-- A sequence of invocations of the visibility check, each with the
geometry the environment reports at that moment. -/
def runChecks (envs : List (ℚ × ℚ)) (s : TickerState) : TickerState :=
  envs.foldl (fun st e => animateTicker e.1 e.2 st) s

/-- The counter data found inside the ticker container. -/
structure ContainerData where
  counters : List (JsNum × Nat)
deriving DecidableEq

/-- What the DOMContentLoaded handler produced: whether a scroll listener
was registered, how many interval timers were created by the immediate
check, and the trigger state (`none` when setup returned early). -/
structure SetupResult where
  listenerRegistered : Bool
  timersCreated : Nat
  tickerState : Option TickerState
deriving DecidableEq

/-- The DOMContentLoaded handler (script.js lines 2-32): if the ticker
container is absent (`getElementById` returned null), return without
registering anything; otherwise register the scroll listener and run the
immediate visibility check with the geometry at page-ready time. -/
def setup (container : Option ContainerData) (pos innerHeight : ℚ) :
    SetupResult :=
  match container with
  | none =>
    { listenerRegistered := false, timersCreated := 0, tickerState := none }
  | some cd =>
    let s := animateTicker pos innerHeight initTicker
    { listenerRegistered := true
      timersCreated := if s.started then cd.counters.length else 0
      tickerState := some s }

/-! ### Basic lemmas about the counter step function -/

lemma tick_of_not_running (c : Counter) (h : c.running = false) :
    tick c = c := by
  simp [tick, h]

lemma tick_target (c : Counter) : (tick c).target = c.target := by
  unfold tick
  split
  · dsimp only
    split <;> rfl
  · rfl

lemma tick_step (c : Counter) : (tick c).step = c.step := by
  unfold tick
  split
  · dsimp only
    split <;> rfl
  · rfl

lemma tick_decimals (c : Counter) : (tick c).decimals = c.decimals := by
  unfold tick
  split
  · dsimp only
    split <;> rfl
  · rfl

lemma runTicks_target (c : Counter) (n : Nat) :
    (runTicks c n).target = c.target := by
  induction n with
  | zero => rfl
  | succ n ih => rw [runTicks, tick_target, ih]

lemma runTicks_step (c : Counter) (n : Nat) :
    (runTicks c n).step = c.step := by
  induction n with
  | zero => rfl
  | succ n ih => rw [runTicks, tick_step, ih]

lemma runTicks_decimals (c : Counter) (n : Nat) :
    (runTicks c n).decimals = c.decimals := by
  induction n with
  | zero => rfl
  | succ n ih => rw [runTicks, tick_decimals, ih]

lemma runTicks_of_not_running (c : Counter) (n : Nat)
    (h : c.running = false) : runTicks c n = c := by
  induction n with
  | zero => rfl
  | succ n ih => rw [runTicks, ih, tick_of_not_running c h]

lemma runTicks_add (c : Counter) (m n : Nat) :
    runTicks c (m + n) = runTicks (runTicks c m) n := by
  induction n with
  | zero => rfl
  | succ n ih => rw [← Nat.add_assoc, runTicks, runTicks, ih]

/-! ### Basic lemmas about the page-level trigger -/

lemma animateTicker_of_started (pos innerHeight : ℚ) (s : TickerState)
    (h : s.started = true) : animateTicker pos innerHeight s = s := by
  simp [animateTicker, h]

lemma runChecks_of_started (envs : List (ℚ × ℚ)) (s : TickerState)
    (h : s.started = true) : runChecks envs s = s := by
  induction envs with
  | nil => rfl
  | cons e es ih =>
    rw [runChecks, List.foldl_cons, animateTicker_of_started _ _ _ h]
    exact ih

lemma runChecks_cons (e : ℚ × ℚ) (es : List (ℚ × ℚ)) (s : TickerState) :
    runChecks (e :: es) s = runChecks es (animateTicker e.1 e.2 s) := rfl

lemma tick_of_running (c : Counter) (h : c.running = true) :
    tick c =
      if jsGe (jsAdd c.count c.step) c.target then
        { c with count := c.target
                 running := false
                 text := some (toFixedJ c.target c.decimals) }
      else
        { c with count := jsAdd c.count c.step
                 text := some (toFixedJ (jsAdd c.count c.step) c.decimals) } := by
  simp [tick, h]

/-- Once a counter's timer has been cancelled, the last rendered text is
the exact target formatted to the counter's `decimals`: the cancelling
tick sets `count = target` before the render. -/
lemma runTicks_settled_text (t : JsNum) (d : Nat) (n : Nat)
    (h : (runTicks (initCounter t d) n).running = false) :
    (runTicks (initCounter t d) n).text = some (toFixedJ t d) := by
  induction n with
  | zero => simp [runTicks, initCounter] at h
  | succ n ih =>
    by_cases hr : (runTicks (initCounter t d) n).running = true
    · rw [runTicks, tick_of_running _ hr] at h ⊢
      by_cases hge : jsGe (jsAdd (runTicks (initCounter t d) n).count
          (runTicks (initCounter t d) n).step)
          (runTicks (initCounter t d) n).target = true
      · rw [if_pos hge, runTicks_target, runTicks_decimals]
        rfl
      · rw [if_neg hge] at h
        exact absurd (hr.symm.trans h) (by simp)
    · rw [Bool.not_eq_true] at hr
      rw [runTicks, tick_of_not_running _ hr]
      exact ih hr

/-- For a strictly positive target and `n ≤ 99` elapsed ticks, the timer
is still scheduled and the running value is `n` steps of `target / 100`. -/
lemma runTicks_pos_count (t : ℚ) (ht : 0 < t) (d : Nat) :
    ∀ n : Nat, n ≤ 99 →
      (runTicks (initCounter (some t) d) n).running = true ∧
      (runTicks (initCounter (some t) d) n).count = some ((n : ℚ) * (t / 100))
  | 0, _ => ⟨rfl, by norm_num [runTicks, initCounter]⟩
  | n + 1, hn => by
    obtain ⟨hr, hc⟩ :=
      runTicks_pos_count t ht d n (Nat.le_of_succ_le hn)
    have hs : (runTicks (initCounter (some t) d) n).step = some (t / 100) := by
      rw [runTicks_step]; rfl
    have htg : (runTicks (initCounter (some t) d) n).target = some t := by
      rw [runTicks_target]; rfl
    have hadd : jsAdd (runTicks (initCounter (some t) d) n).count
        (runTicks (initCounter (some t) d) n).step =
        some (((n : ℚ) + 1) * (t / 100)) := by
      rw [hc, hs]
      show some ((n : ℚ) * (t / 100) + t / 100) = _
      congr 1
      ring
    have hn99 : (n : ℚ) + 1 ≤ 99 := by exact_mod_cast hn
    have hlt : ((n : ℚ) + 1) * (t / 100) < t := by
      have h1 : ((n : ℚ) + 1) * t ≤ 99 * t :=
        mul_le_mul_of_nonneg_right hn99 (le_of_lt ht)
      rw [← mul_div_assoc, div_lt_iff₀ (by norm_num : (0 : ℚ) < 100)]
      linarith
    have hge : jsGe (some (((n : ℚ) + 1) * (t / 100))) (some t) = false := by
      simp only [jsGe, decide_eq_false_iff_not]
      exact not_le.mpr hlt
    rw [runTicks, tick_of_running _ hr, hadd, htg, if_neg (by simp [hge])]
    exact ⟨hr, by push_cast; rfl⟩

/-- A strictly positive target cancels its timer on the 100th tick:
after 99 ticks the count is `99 * target / 100`, the 100th increment
reaches exactly `target`, and `count >= target` holds. -/
lemma runTicks_pos_stop (t : ℚ) (ht : 0 < t) (d : Nat) :
    (runTicks (initCounter (some t) d) 100).running = false := by
  obtain ⟨hr, hc⟩ := runTicks_pos_count t ht d 99 (le_refl 99)
  have hs : (runTicks (initCounter (some t) d) 99).step = some (t / 100) := by
    rw [runTicks_step]; rfl
  have htg : (runTicks (initCounter (some t) d) 99).target = some t := by
    rw [runTicks_target]; rfl
  have hadd : jsAdd (runTicks (initCounter (some t) d) 99).count
      (runTicks (initCounter (some t) d) 99).step = some t := by
    rw [hc, hs]
    show some ((99 : ℚ) * (t / 100) + t / 100) = some t
    norm_num
    ring
  have hge : jsGe (some t) (some t) = true := by simp [jsGe]
  show (tick (runTicks (initCounter (some t) d) 99)).running = false
  rw [tick_of_running _ hr, hadd, htg, if_pos (by simp [hge])]

/-- A nonpositive target cancels its timer on the very first tick: the
incremented value `0 + target / 100` already satisfies
`count >= target`. -/
lemma tick_nonpos_stop (t : ℚ) (ht : t ≤ 0) (d : Nat) :
    (tick (initCounter (some t) d)).running = false := by
  have hcond : t ≤ t / 100 := by linarith
  simp [tick, initCounter, jsAdd, jsDiv100, jsGe, hcond]

/-- With a NaN target the timer is never cancelled: `step` is NaN, the
count becomes and stays NaN, `count >= target` is always false, and every
tick from the first onward rewrites the element's text to "NaN". -/
lemma runTicks_nan (d : Nat) : ∀ n : Nat,
    (runTicks (initCounter none d) n).running = true ∧
    (1 ≤ n → (runTicks (initCounter none d) n).count = none ∧
      (runTicks (initCounter none d) n).text = some "NaN")
  | 0 => ⟨rfl, by simp⟩
  | n + 1 => by
    obtain ⟨hr, _⟩ := runTicks_nan d n
    have hs : (runTicks (initCounter none d) n).step = none := by
      rw [runTicks_step]; rfl
    have htg : (runTicks (initCounter none d) n).target = none := by
      rw [runTicks_target]; rfl
    have hadd : jsAdd (runTicks (initCounter none d) n).count
        (runTicks (initCounter none d) n).step = none := by
      rw [hs]
      cases (runTicks (initCounter none d) n).count <;> rfl
    have hge : jsGe (none : JsNum) (none : JsNum) = false := rfl
    rw [runTicks, tick_of_running _ hr, hadd, htg,
      if_neg (by simp [hge])]
    exact ⟨hr, fun _ => ⟨rfl, rfl⟩⟩

/-- From an un-triggered page state, any sequence of visibility checks
starts the animation set at most once. -/
lemma runChecks_startEvents_le_one (envs : List (ℚ × ℚ)) :
    ∀ s : TickerState, s.started = false → s.startEvents = 0 →
      (runChecks envs s).startEvents ≤ 1 := by
  induction envs with
  | nil =>
    intro s _ h0
    simp [runChecks, h0]
  | cons e es ih =>
    intro s hs h0
    rw [runChecks_cons]
    by_cases hlt : e.1 < e.2
    · have htrig : animateTicker e.1 e.2 s =
          { started := true, startEvents := s.startEvents + 1 } := by
        simp [animateTicker, hs, hlt]
      rw [htrig, runChecks_of_started _ _ rfl, h0]
    · have hskip : animateTicker e.1 e.2 s = s := by
        simp [animateTicker, hs, hlt]
      rw [hskip]
      exact ih s hs h0

/-! ### Claim theorems -/

/-- C1: The page-wide Armed flag `started` is initialized false; for any
sequence of invocations of the visibility check, the animation set is
started at most once per page load; and every invocation after the flag
is set returns immediately without changing any state. -/
theorem ticker_at_most_once_trigger :
    initTicker.started = false ∧
    (∀ envs : List (ℚ × ℚ), (runChecks envs initTicker).startEvents ≤ 1) ∧
    (∀ (pos innerHeight : ℚ) (s : TickerState), s.started = true →
      animateTicker pos innerHeight s = s) :=
  ⟨rfl,
   fun envs => runChecks_startEvents_le_one envs initTicker rfl rfl,
   fun pos innerHeight s hs => animateTicker_of_started pos innerHeight s hs⟩

/-- Witness for C1: a concrete armed state is left unchanged by a further
visibility check. -/
theorem ticker_at_most_once_trigger_witness :
    ({ started := true, startEvents := 1 } : TickerState).started = true ∧
    animateTicker 3 7 { started := true, startEvents := 1 } =
      { started := true, startEvents := 1 } :=
  ⟨rfl, ticker_at_most_once_trigger.2.2 3 7 { started := true, startEvents := 1 } rfl⟩

/-- C2: For every counter whose animation terminates (its timer got
cancelled), including target 0 and negative targets, the last text
rendered into the element is the exact target formatted to `decimals`
digits: the cancelling tick sets `count = target` before the render. -/
theorem terminal_value_exact (t : JsNum) (d n : Nat)
    (h : (runTicks (initCounter t d) n).running = false) :
    (runTicks (initCounter t d) n).text = some (toFixedJ t d) :=
  runTicks_settled_text t d n h

/-- Witness for C2: the zero-target counter has terminated after one tick
and its text is the formatted exact target. -/
theorem terminal_value_exact_witness :
    (runTicks (initCounter (some 0) 0) 1).running = false ∧
    (runTicks (initCounter (some 0) 0) 1).text =
      some (toFixedJ (some 0) 0) :=
  ⟨tick_nonpos_stop 0 le_rfl 0,
   terminal_value_exact (some 0) 0 1 (tick_nonpos_stop 0 le_rfl 0)⟩

/-- C3 counterexample: with a NaN parsed target (missing or non-numeric
attribute) the timer is still running after 101 callback firings, so it
is not the case that the callback runs at most 101 times before the
counter cancels its own timer regardless of the parsed target. -/
theorem tick_bound_nan_counterexample :
    (runTicks (initCounter none 0) 101).running = true :=
  (runTicks_nan 0 101).1

/-- C3 (amended): for every counter whose parsed target is an actual
number (not NaN), the repeating timer's callback runs at most 101 times
before the counter cancels its own timer: after 101 firings the timer
has been cancelled. -/
theorem tick_bound_numeric_target (t : ℚ) (d : Nat) :
    (runTicks (initCounter (some t) d) 101).running = false := by
  rcases le_or_lt t 0 with ht | ht
  · have h1 : (runTicks (initCounter (some t) d) 1).running = false :=
      tick_nonpos_stop t ht d
    have hsplit : runTicks (initCounter (some t) d) 101 =
        runTicks (runTicks (initCounter (some t) d) 1) 100 := by
      rw [← runTicks_add]
    rw [hsplit, runTicks_of_not_running _ _ h1]
    exact h1
  · have h100 : (runTicks (initCounter (some t) d) 100).running = false :=
      runTicks_pos_stop t ht d
    have hsplit : runTicks (initCounter (some t) d) 101 =
        runTicks (runTicks (initCounter (some t) d) 100) 1 := by
      rw [← runTicks_add]
    rw [hsplit, runTicks_of_not_running _ _ h100]
    exact h100

/-- C4 counterexample: for target -100 the clamp condition
`count >= target` holds already on the very first tick, when the running
value -1 has not passed the target downward (-1 > -100); the counter
terminates on that first tick, not after the running value passes the
target. -/
theorem negative_target_counterexample :
    jsAdd (initCounter (some (-100)) 0).count
      (initCounter (some (-100)) 0).step = some (-1) ∧
    jsGe (jsAdd (initCounter (some (-100)) 0).count
      (initCounter (some (-100)) 0).step) (some (-100)) = true ∧
    ¬ ((-1 : ℚ) ≤ -100) ∧
    (tick (initCounter (some (-100)) 0)).running = false ∧
    (tick (initCounter (some (-100)) 0)).count = some (-100) := by
  refine ⟨?_, ?_, ?_, ?_, ?_⟩ <;>
    norm_num [tick, initCounter, jsAdd, jsDiv100, jsGe]

/-- C4 (amended): for every strictly negative target the step
`target / 100` is negative, but the clamp condition `count >= target`
already holds on the first tick (since `target / 100 ≥ target`), so the
counter terminates on the first tick at the exact negative target. -/
theorem negative_target_first_tick (t : ℚ) (d : Nat) (ht : t < 0) :
    (initCounter (some t) d).step = some (t / 100) ∧
    t / 100 < 0 ∧
    t ≤ 0 + t / 100 ∧
    (tick (initCounter (some t) d)).running = false ∧
    (tick (initCounter (some t) d)).count = some t ∧
    (tick (initCounter (some t) d)).text = some (toFixedJ (some t) d) := by
  have hstep : t / 100 < 0 := by linarith
  have hcond : t ≤ t / 100 := by linarith
  refine ⟨rfl, hstep, by linarith, ?_, ?_, ?_⟩ <;>
    simp [tick, initCounter, jsAdd, jsDiv100, jsGe, hcond]

/-- Witness for C4 (amended) at target -50 with one decimal digit. -/
theorem negative_target_first_tick_witness :
    (-50 : ℚ) < 0 ∧
    ((initCounter (some (-50)) 1).step = some ((-50) / 100) ∧
     (-50 : ℚ) / 100 < 0 ∧
     (-50 : ℚ) ≤ 0 + (-50) / 100 ∧
     (tick (initCounter (some (-50)) 1)).running = false ∧
     (tick (initCounter (some (-50)) 1)).count = some (-50) ∧
     (tick (initCounter (some (-50)) 1)).text =
       some (toFixedJ (some (-50)) 1)) :=
  ⟨by norm_num, negative_target_first_tick (-50) 1 (by norm_num)⟩

/-- C5: One invocation of the visibility check starts the animation set
exactly when the Armed flag is still false and the container's top edge
distance from the viewport top is strictly less than the viewport
height; when the distance equals or exceeds the viewport height the
check changes no state. -/
theorem trigger_condition (pos innerHeight : ℚ) (s : TickerState) :
    ((animateTicker pos innerHeight s).startEvents = s.startEvents + 1 ↔
      (s.started = false ∧ pos < innerHeight)) ∧
    (innerHeight ≤ pos → animateTicker pos innerHeight s = s) := by
  constructor
  · unfold animateTicker
    by_cases hs : s.started
    · simp [hs]
    · by_cases hlt : pos < innerHeight <;> simp [hs, hlt]
  · intro hge
    unfold animateTicker
    by_cases hs : s.started <;> simp [hs, not_lt.mpr hge]

/-- Witness for C5: with the container's top edge at 20 and viewport
height 10, the check leaves the initial state unchanged. -/
theorem trigger_condition_witness :
    ((10 : ℚ) ≤ 20) ∧ animateTicker 20 10 initTicker = initTicker :=
  ⟨by norm_num, (trigger_condition 20 10 initTicker).2 (by norm_num)⟩

/-- C6: Per-tick algorithm: the counter's increment per tick is
`target / 100`, its timer interval is a fixed 20 time-units, and each
callback firing adds the step to the running value, clamps it to the
target (cancelling the timer) when it reaches or exceeds the target, and
writes the (possibly clamped) running value formatted to exactly
`decimals` fractional digits into the element's text. -/
theorem per_tick_algorithm (t : ℚ) (d : Nat) :
    (initCounter (some t) d).intervalMs = 20 ∧
    (initCounter (some t) d).step = some (t / 100) ∧
    (∀ c : Counter, c.running = true →
      tick c =
        if jsGe (jsAdd c.count c.step) c.target then
          { c with count := c.target
                   running := false
                   text := some (toFixedJ c.target c.decimals) }
        else
          { c with count := jsAdd c.count c.step
                   text := some (toFixedJ (jsAdd c.count c.step) c.decimals) }) :=
  ⟨rfl, rfl, fun c hc => tick_of_running c hc⟩

/-- Witness for C6 at a freshly created counter with target 100. -/
theorem per_tick_algorithm_witness :
    (initCounter (some 100) 0).running = true ∧
    tick (initCounter (some 100) 0) =
      (if jsGe (jsAdd (initCounter (some 100) 0).count
          (initCounter (some 100) 0).step) (initCounter (some 100) 0).target then
        { initCounter (some 100) 0 with
            count := (initCounter (some 100) 0).target
            running := false
            text := some (toFixedJ (initCounter (some 100) 0).target
              (initCounter (some 100) 0).decimals) }
      else
        { initCounter (some 100) 0 with
            count := jsAdd (initCounter (some 100) 0).count
              (initCounter (some 100) 0).step
            text := some (toFixedJ (jsAdd (initCounter (some 100) 0).count
              (initCounter (some 100) 0).step)
              (initCounter (some 100) 0).decimals) }) :=
  ⟨rfl, (per_tick_algorithm 100 0).2.2 (initCounter (some 100) 0) rfl⟩

/-- C7: If no element with the ticker identifier exists at page-ready
time, setup terminates early: no scroll listener is registered, no timers
are created, and no trigger state is ever built, whatever geometry the
environment would have reported. -/
theorem missing_container_noop (pos innerHeight : ℚ) :
    setup none pos innerHeight =
      { listenerRegistered := false, timersCreated := 0, tickerState := none } :=
  rfl

/-- C8: For a counter with target 0 the step is 0, the clamp condition
holds on the first tick, the counter renders "0" (formatted to 0
decimals) on that first tick, and its timer is cancelled immediately. -/
theorem zero_target_first_tick :
    (initCounter (some 0) 0).step = some 0 ∧
    jsGe (jsAdd (initCounter (some 0) 0).count (initCounter (some 0) 0).step)
      (initCounter (some 0) 0).target = true ∧
    (tick (initCounter (some 0) 0)).running = false ∧
    (tick (initCounter (some 0) 0)).count = some 0 ∧
    (tick (initCounter (some 0) 0)).text = some "0" := by
  have hfix : toFixedJ (some 0) 0 = "0" := by
    show ratToFixed 0 0 = "0"
    unfold ratToFixed
    have h2 : (⌊|(0 : ℚ)| * 10 ^ 0 + 1 / 2⌋) = 0 := by
      rw [abs_zero, Int.floor_eq_iff]
      norm_num
    rw [if_neg (lt_irrefl (0 : ℚ)), h2]
    decide
  refine ⟨?_, ?_, ?_, ?_, ?_⟩ <;>
    norm_num [tick, initCounter, jsAdd, jsDiv100, jsGe, hfix]

/-- C9: For every counter with a non-negative, non-NaN target, the
running value after any number of ticks is at most the target, and from
the first tick onward the rendered text is that (clamped) value
formatted to `decimals` digits: the clamp is applied before each
render. -/
theorem no_intermediate_overshoot (t : ℚ) (d : Nat) (ht : 0 ≤ t) :
    ∀ n : Nat, ∃ v : ℚ,
      (runTicks (initCounter (some t) d) n).count = some v ∧ v ≤ t ∧
      (n = 0 ∨ (runTicks (initCounter (some t) d) n).text =
        some (toFixedJ (some v) d)) := by
  intro n
  induction n with
  | zero => exact ⟨0, rfl, ht, Or.inl rfl⟩
  | succ n ih =>
    obtain ⟨v, hv, hvt, hor⟩ := ih
    by_cases hr : (runTicks (initCounter (some t) d) n).running = true
    · have hs : (runTicks (initCounter (some t) d) n).step = some (t / 100) := by
        rw [runTicks_step]; rfl
      have htg : (runTicks (initCounter (some t) d) n).target = some t := by
        rw [runTicks_target]; rfl
      have hadd : jsAdd (runTicks (initCounter (some t) d) n).count
          (runTicks (initCounter (some t) d) n).step = some (v + t / 100) := by
        rw [hv, hs]; rfl
      rw [runTicks, tick_of_running _ hr, hadd, htg]
      by_cases hge : jsGe (some (v + t / 100)) (some t) = true
      · rw [if_pos hge]
        refine ⟨t, rfl, le_refl t, Or.inr ?_⟩
        rw [runTicks_decimals]
        rfl
      · rw [if_neg hge]
        have hlt : v + t / 100 < t := by
          simp only [jsGe, decide_eq_true_eq] at hge
          exact lt_of_not_le hge
        refine ⟨v + t / 100, rfl, le_of_lt hlt, Or.inr ?_⟩
        rw [runTicks_decimals]
        rfl
    · rw [Bool.not_eq_true] at hr
      rw [runTicks, tick_of_not_running _ hr]
      cases hor with
      | inl h0 =>
        rw [h0] at hr
        simp [runTicks, initCounter] at hr
      | inr htext => exact ⟨v, hv, hvt, Or.inr htext⟩

/-- Witness for C9 at target 250 with one decimal digit after two
ticks. -/
theorem no_intermediate_overshoot_witness :
    (0 : ℚ) ≤ 250 ∧ ∃ v : ℚ,
      (runTicks (initCounter (some 250) 1) 2).count = some v ∧ v ≤ 250 ∧
      (2 = 0 ∨ (runTicks (initCounter (some 250) 1) 2).text =
        some (toFixedJ (some v) 1)) :=
  ⟨by norm_num, no_intermediate_overshoot 250 1 (by norm_num) 2⟩

/-- C10: If a counter's parsed target is NaN, the running value becomes
NaN on the first tick and stays NaN, the cancel condition
`count >= target` is never satisfied, so the timer is never cancelled
and from the first tick onward the element's text is rewritten to "NaN"
on every tick. -/
theorem nan_target_never_cancels (d n : Nat) :
    (runTicks (initCounter none d) n).running = true ∧
    (1 ≤ n → (runTicks (initCounter none d) n).count = none ∧
      (runTicks (initCounter none d) n).text = some "NaN") :=
  runTicks_nan d n

/-- Witness for C10 after three ticks. -/
theorem nan_target_never_cancels_witness :
    (runTicks (initCounter none 0) 3).running = true ∧ (1 ≤ 3) ∧
    ((runTicks (initCounter none 0) 3).count = none ∧
      (runTicks (initCounter none 0) 3).text = some "NaN") :=
  ⟨(nan_target_never_cancels 0 3).1, by norm_num,
   (nan_target_never_cancels 0 3).2 (by norm_num)⟩
